import Mathlib

/-!
Verification of the query-execution and cursor layer of the RediSearch
aggregate module (`src/aggregate/aggregate_exec.c`), as a shallow embedding.

Doubles are kept abstract: the embedding is parametric over a type `D` of
64-bit floating-point values together with the behaviour `g17 : D → String`
of the C library's `%.17g` formatter, which is an external collaborator.
Reply emission is modelled as an explicit list of reply elements in the
order the C code calls the `RedisModule_Reply*` functions.
-/

namespace RediSearchExec

/-- Result codes returned by a result processor's `Next` call
(`RS_RESULT_OK`, `RS_RESULT_EOF`, `RS_RESULT_PAUSED`, `RS_RESULT_ERROR`). -/
inductive RPStatus where
  | Ok
  | Eof
  | Paused
  | Error
deriving DecidableEq, Repr

/-- Values stored in a result row (`RSValue`): numbers, owned strings,
host (Redis) strings, NIL, or any other domain type.  The number payload is
the abstract double type `D`. -/
inductive RSValue (D : Type) where
  | number (numval : D)
  | str (strval : String)
  | redisString (rstrval : String)
  | nil
  | other
deriving DecidableEq, Repr

/-- Document metadata (`RSDocumentMetadata`): the document key and an
optional payload. -/
structure RSDocumentMetadata where
  key : String
  payload : Option String
deriving DecidableEq, Repr

/-- A lookup key (`RLookupKey`): a named slot into row data, with the
`RLOOKUP_F_HIDDEN` and `RLOOKUP_F_SVSRC` flags and a sort-vector index. -/
structure RLookupKey where
  name : String
  hidden : Bool
  svsrc : Bool
  svidx : Nat
deriving DecidableEq, Repr

/-- Row data of a search result (`r->rowdata`): the general key/value map
consulted by `RLookup_GetItem`, plus the packed sort vector `sv`. -/
structure RowData (D : Type) where
  map : List (String × RSValue D)
  sv : List (RSValue D)
deriving DecidableEq, Repr

/-- Item lookup in a row (`RLookup_GetItem`), keyed by the lookup key's
name; `none` models a NULL return. -/
def RLookup_GetItem {D : Type} (kk : RLookupKey) (row : RowData D) :
    Option (RSValue D) :=
  (row.map.find? (fun p => p.1 == kk.name)).map (fun p => p.2)

/-- A search result record (`SearchResult`): metadata handle, score and
row data. -/
structure SearchResult (D : Type) where
  dmd : Option RSDocumentMetadata
  score : D
  rowdata : RowData D
deriving DecidableEq, Repr

/-- Arrange plan step (`PLN_ArrangeStep`); we keep only `sortkeysLK[0]`,
the primary sort key, which is all `getSortKey` reads. -/
structure PLN_ArrangeStep where
  sortkeysLK0 : RLookupKey
deriving DecidableEq, Repr

/-- Request flags (`req->reqflags`), one field per `QEXEC_F_*` bit used by
this translation unit. -/
structure ReqFlags where
  isSearch : Bool
  isCursor : Bool
  sendScores : Bool
  sendPayloads : Bool
  sendSortkeys : Bool
  sendNoFields : Bool
  noRows : Bool
deriving DecidableEq, Repr

/-- State flags (`req->stateflags`): `QEXEC_S_ITERDONE` and
`QEXEC_S_ERROR`. -/
structure StateFlags where
  iterDone : Bool
  error : Bool
deriving DecidableEq, Repr

/-- The request object (`AREQ`), restricted to the fields this translation
unit reads: flags, the arrange step and last lookup scope of the plan, the
running total-results counter of the query iterator, and the cursor chunk
size. -/
structure AREQ (D : Type) where
  reqflags : ReqFlags
  stateflags : StateFlags
  arrangeStep : Option PLN_ArrangeStep
  lastLookup : List RLookupKey
  totalResults : Nat
  cursorChunkSize : Nat
deriving DecidableEq, Repr

/-- One element of the nested field array emitted by `serializeResult`:
a field name (`RedisModule_ReplyWithSimpleString`), a null, or a row value
sent through the external serializer `RSValue_SendReply`. -/
inductive FieldElem (D : Type) where
  | simple (s : String)
  | nil
  | value (v : RSValue D)
deriving DecidableEq, Repr

/-- One top-level element of a Redis module reply, in emission order.
Constructors correspond to the `RedisModule_Reply*` calls made by the C
file; `array` is the nested field array of a serialized result. -/
inductive ReplyElem (D : Type) where
  | bulk (s : String)
  | double (d : D)
  | nil
  | int (n : Int)
  | array (elems : List (FieldElem D))
deriving DecidableEq, Repr

/-- Sort-key extraction (`getSortKey`): the primary sort key of the arrange
step, read from the packed sort vector when the key has `RLOOKUP_F_SVSRC`,
otherwise from the row map; `none` when there is no arrange step. -/
def getSortKey {D : Type} (req : AREQ D) (r : SearchResult D) :
    Option (RSValue D) :=
  match req.arrangeStep with
  | none => none
  | some astp =>
    let kk := astp.sortkeysLK0
    if kk.svsrc then
      r.rowdata.sv.get? kk.svidx
    else
      RLookup_GetItem kk r.rowdata

/-- Sort-key wire encoding: the `switch (sortkey->t)` of `serializeResult`.
Numbers become `"#" ++ %.17g`, owned and host strings become `"$" ++ bytes`,
anything else (or a missing sort key) becomes a null reply. -/
def replySortKey {D : Type} (g17 : D → String) :
    Option (RSValue D) → ReplyElem D
  | some (RSValue.number v) => ReplyElem.bulk ("#" ++ g17 v)
  | some (RSValue.str s) => ReplyElem.bulk ("$" ++ s)
  | some (RSValue.redisString s) => ReplyElem.bulk ("$" ++ s)
  | some RSValue.nil => ReplyElem.nil
  | some RSValue.other => ReplyElem.nil
  | none => ReplyElem.nil

/-- Field block of `serializeResult`: walk the lookup keys in insertion
order, skip hidden keys, and for each remaining key emit its name as a
simple string followed by its row value, or null when the value is missing. -/
def serializeFields {D : Type} (keys : List RLookupKey) (row : RowData D) :
    List (FieldElem D) :=
  match keys with
  | [] => []
  | kk :: rest =>
    if kk.hidden then
      serializeFields rest row
    else
      FieldElem.simple kk.name ::
        (match RLookup_GetItem kk row with
         | none => FieldElem.nil
         | some v => FieldElem.value v) ::
        serializeFields rest row

/-- Serialization of one search result (`serializeResult`): the emitted
reply elements in order, paired with the `count` the C function returns.
Section order and conditions follow the C code: document key (search mode
with metadata), score, payload-or-null, sort-key-or-null, and the nested
field array. -/
def serializeResult {D : Type} (g17 : D → String) (req : AREQ D)
    (r : SearchResult D) : List (ReplyElem D) × Nat :=
  let sec1 : List (ReplyElem D) × Nat :=
    match r.dmd with
    | some dmd =>
      if req.reqflags.isSearch then ([ReplyElem.bulk dmd.key], 1) else ([], 0)
    | none => ([], 0)
  let sec2 : List (ReplyElem D) × Nat :=
    if req.reqflags.sendScores then ([ReplyElem.double r.score], 1) else ([], 0)
  let sec3 : List (ReplyElem D) × Nat :=
    if req.reqflags.sendPayloads then
      (match r.dmd with
       | some dmd =>
         match dmd.payload with
         | some p => ([ReplyElem.bulk p], 1)
         | none => ([ReplyElem.nil], 1)
       | none => ([ReplyElem.nil], 1))
    else ([], 0)
  let sec4 : List (ReplyElem D) × Nat :=
    if req.reqflags.sendSortkeys then
      ([replySortKey g17 (getSortKey req r)], 1)
    else ([], 0)
  let sec5 : List (ReplyElem D) × Nat :=
    if req.reqflags.sendNoFields then ([], 0)
    else ([ReplyElem.array (serializeFields req.lastLookup r.rowdata)], 1)
  (sec1.1 ++ sec2.1 ++ sec3.1 ++ sec4.1 ++ sec5.1,
   sec1.2 + sec2.2 + sec3.2 + sec4.2 + sec5.2)

/-- Result of one `sendChunk` call: the elements written inside the
deferred-length array in emission order, the element count the C code
passes to `RedisModule_ReplySetArrayLength`, and the value of `rc` at the
`done:` label (the status of the last `Next` call, or `Ok` when the loop
stopped only because of the row limit). -/
structure ChunkReply (D : Type) where
  elems : List (ReplyElem D)
  nelem : Nat
  finalRc : RPStatus
deriving DecidableEq, Repr

/-- Pipeline model: the successive return values of `rp->Next` on the end
processor, each an `RPStatus` together with the populated result.  Running
off the end of the list models the stream staying at end-of-file. -/
abbrev RPStream (D : Type) := List (RPStatus × SearchResult D)

/-- Row loop of `sendChunk` (`while (nrows++ < limit && (rc = rp->Next(rp,
&r)) == RS_RESULT_OK) { nelem += serializeResult(...); }`): returns the
serialized elements, their count, and the final `rc`.  Entered only with
`rc == RS_RESULT_OK`, so stopping on the row-limit test leaves `rc` at
`Ok`. -/
def sendChunkLoop {D : Type} (g17 : D → String) (req : AREQ D)
    (limit : Nat) : Nat → RPStream D → List (ReplyElem D) × Nat × RPStatus
  | nrows, stream =>
    if nrows < limit then
      match stream with
      | [] => ([], 0, RPStatus.Eof)
      | (rc, r) :: rest =>
        if rc = RPStatus.Ok then
          let se := serializeResult g17 req r
          let cont := sendChunkLoop g17 req limit (nrows + 1) rest
          (se.1 ++ cont.1, se.2 + cont.2.1, cont.2.2)
        else
          ([], 0, rc)
    else
      ([], 0, RPStatus.Ok)

/-- Batch reply production (`sendChunk`): open a deferred-length array,
pull the first result, emit `totalResults`, serialize the first result when
it arrived `Ok` and `0 < limit` and `NOROWS` is unset, then run the row
loop; at `done:`, set `ITERDONE` whenever the final `rc` is not `Ok` and
close the array with the element count.  Returns the chunk reply and the
updated state flags. -/
def sendChunk {D : Type} (g17 : D → String) (req : AREQ D)
    (stream : RPStream D) (limit : Nat) : ChunkReply D × StateFlags :=
  let head := ReplyElem.int (req.totalResults : Int)
  match stream with
  | [] =>
    ({ elems := [head], nelem := 1, finalRc := RPStatus.Eof },
     { req.stateflags with iterDone := true })
  | (rc, r) :: rest =>
    if rc = RPStatus.Ok then
      let first :=
        if 0 < limit ∧ req.reqflags.noRows = false then
          serializeResult g17 req r
        else ([], 0)
      let cont := sendChunkLoop g17 req limit 1 rest
      let flags :=
        if cont.2.2 = RPStatus.Ok then req.stateflags
        else { req.stateflags with iterDone := true }
      ({ elems := head :: (first.1 ++ cont.1),
         nelem := 1 + first.2 + cont.2.1,
         finalRc := cont.2.2 }, flags)
    else
      ({ elems := [head], nelem := 1, finalRc := rc },
       { req.stateflags with iterDone := true })

/-- Global configuration (`RSGlobalConfig`), restricted to the default
cursor read size. -/
structure RSGlobalConfigT where
  cursorReadSize : Nat
deriving DecidableEq, Repr

/-- Effective chunk size computed at the top of `runCursor`
(`if (!num) { num = req->cursorChunkSize; if (!num) num =
RSGlobalConfig.cursorReadSize; }`). -/
def cursorEffectiveSize (cfg : RSGlobalConfigT) (chunkSize num : Nat) :
    Nat :=
  if num = 0 then
    (if chunkSize = 0 then cfg.cursorReadSize else chunkSize)
  else num

/-- Fate of the cursor at the end of `runCursor`: `disposed` stands for
the `delcursor` path (`AREQ_Free`, detach `execState`, `Cursor_Free`),
`paused` for the `Cursor_Pause` path (lease released, idle timestamp
updated). -/
inductive CursorOutcome where
  | disposed
  | paused
deriving DecidableEq, Repr

/-- Result of `runCursor`: the chunk reply (first element of the fixed
2-element outer array), the second outer element (`0` or the cursor id),
the cursor's fate, and the request as left by the call (chunk size written
back, state flags updated by `sendChunk`). -/
structure RunCursorResult (D : Type) where
  chunk : ChunkReply D
  second : Nat
  outcome : CursorOutcome
  req : AREQ D
deriving DecidableEq, Repr

/-- Cursor chunk streaming (`runCursor`): compute the effective chunk
size, write it back into `req->cursorChunkSize`, reply a 2-element array
whose first element is the `sendChunk` output; then, on `ERROR`, reply `0`
and dispose; on `ITERDONE`, reply `0` and dispose; otherwise reply the
cursor id and pause the cursor. -/
def runCursor {D : Type} (g17 : D → String) (cfg : RSGlobalConfigT)
    (cursorId : Nat) (req : AREQ D) (stream : RPStream D) (num : Nat) :
    RunCursorResult D :=
  let size := cursorEffectiveSize cfg req.cursorChunkSize num
  let req1 : AREQ D := { req with cursorChunkSize := size }
  let out := sendChunk g17 req1 stream size
  let req2 : AREQ D := { req1 with stateflags := out.2 }
  if req2.stateflags.error then
    { chunk := out.1, second := 0, outcome := CursorOutcome.disposed,
      req := req2 }
  else if req2.stateflags.iterDone then
    { chunk := out.1, second := 0, outcome := CursorOutcome.disposed,
      req := req2 }
  else
    { chunk := out.1, second := cursorId, outcome := CursorOutcome.paused,
      req := req2 }

/-- ASCII `toupper`, as applied to the first character of the subcommand. -/
def toupperC (c : Char) : Char :=
  if 'a' ≤ c ∧ c ≤ 'z' then Char.ofNat (c.toNat - 32) else c

/-- First character of a C string; the empty string yields the NUL
character that `*cmd` would read. -/
def firstCharC (s : String) : Char :=
  match s.data with
  | [] => Char.ofNat 0
  | c :: _ => c

/-- Digit-list parser underlying the host integer parse: all characters
must be decimal digits and there must be at least one. -/
def parseDigitsC : List Char → Option Nat
  | [] => none
  | l =>
    if l.all (fun c => c.isDigit) then
      some (l.foldl (fun acc c => acc * 10 + (c.toNat - 48)) 0)
    else none

/-- Modelled from the spec: `RedisModule_StringToLongLong`, the host
ABI's parse of a reply string as a signed 64-bit integer (the spec:
"argv[3] is the cursor id parsed as a signed 64-bit integer").  An
optional leading minus sign, then decimal digits, with the value required
to fit in the signed 64-bit range; anything else fails. -/
def stringToLongLong (s : String) : Option Int :=
  match s.data with
  | '-' :: rest =>
    (parseDigitsC rest).bind (fun n =>
      if n ≤ 2 ^ 63 then some (-(n : Int)) else none)
  | l =>
    (parseDigitsC l).bind (fun n =>
      if n ≤ 2 ^ 63 - 1 then some ((n : Int)) else none)

/-- Conversion of a C `long long` value to `size_t`/`uint64_t` (the
implicit conversions at the calls `cursorRead(ctx, cid, count)` and
`Cursors_TakeForExecution(&RSCursors, cid)`): reduction modulo `2^64`. -/
def toSizeT (n : Int) : Nat :=
  (n % (2 ^ 64)).toNat

/-- Action selected by `RSCursorCommand` after argument parsing: the
erroneous-arity reply, an error reply with a message, or dispatch to the
READ / DEL / GC subcommand implementations. -/
inductive CursorAction where
  | wrongArity
  | errorReply (msg : String)
  | read (cid : Nat) (count : Nat)
  | del (cid : Nat)
  | gc
deriving DecidableEq, Repr

/-- Argument parsing and dispatch of `FT.CURSOR` (`RSCursorCommand`):
reject fewer than 4 arguments; parse `argv[3]` as the cursor id or reply
"Bad cursor ID"; dispatch on the uppercased first letter of `argv[1]`;
for `R`, parse `argv[5]` as COUNT when `argc > 5` or reply "Bad value for
COUNT"; unknown letters reply "Unknown subcommand". -/
def RSCursorCommand (argv : List String) : CursorAction :=
  if argv.length < 4 then CursorAction.wrongArity
  else
    let cmd := argv.getD 1 ""
    match stringToLongLong (argv.getD 3 "") with
    | none => CursorAction.errorReply "Bad cursor ID"
    | some cid =>
      let cmdc := toupperC (firstCharC cmd)
      if cmdc = 'R' then
        (if argv.length > 5 then
          match stringToLongLong (argv.getD 5 "") with
          | none => CursorAction.errorReply "Bad value for COUNT"
          | some count => CursorAction.read (toSizeT cid) (toSizeT count)
        else CursorAction.read (toSizeT cid) (toSizeT 0))
      else if cmdc = 'D' then CursorAction.del (toSizeT cid)
      else if cmdc = 'G' then CursorAction.gc
      else CursorAction.errorReply "Unknown subcommand"

/-- Specification-side description of `serializeResult`'s output: the five
reply sections of the spec's table, each present exactly when its condition
holds, in the spec's order (document key, score, payload-or-null,
sort-key-or-null, nested field array). -/
def serializeResultSpec {D : Type} (g17 : D → String) (req : AREQ D)
    (r : SearchResult D) : List (ReplyElem D) :=
  (match r.dmd, req.reqflags.isSearch with
   | some dmd, true => [ReplyElem.bulk dmd.key]
   | _, _ => []) ++
  (if req.reqflags.sendScores then [ReplyElem.double r.score] else []) ++
  (if req.reqflags.sendPayloads then
    [(match r.dmd with
      | some dmd =>
        (match dmd.payload with
         | some p => ReplyElem.bulk p
         | none => ReplyElem.nil)
      | none => ReplyElem.nil)]
   else []) ++
  (if req.reqflags.sendSortkeys then [replySortKey g17 (getSortKey req r)]
   else []) ++
  (if req.reqflags.sendNoFields then []
   else [ReplyElem.array (serializeFields req.lastLookup r.rowdata)])

/-- Specification-side description of the field block: the non-hidden keys
in insertion order, each contributing its name followed by its
value-or-null. -/
def fieldsSpec {D : Type} (keys : List RLookupKey) (row : RowData D) :
    List (FieldElem D) :=
  (keys.filter (fun k => !k.hidden)).foldr
    (fun k acc =>
      FieldElem.simple k.name ::
        (match RLookup_GetItem k row with
         | none => FieldElem.nil
         | some v => FieldElem.value v) :: acc)
    []

lemma getLast_append_single {α : Type} (l : List α) (a : α) :
    (l ++ [a]).getLast? = some a := by
  induction l with
  | nil => rfl
  | cons x xs ih =>
    cases h : xs ++ [a] with
    | nil => exact absurd h (by simp)
    | cons y t =>
      rw [List.cons_append, h, List.getLast?_cons_cons, ← h, ih]

lemma serializeFields_eq_fieldsSpec {D : Type} (row : RowData D) :
    ∀ keys, serializeFields keys row = fieldsSpec keys row := by
  intro keys
  induction keys with
  | nil => rfl
  | cons k rest ih =>
    by_cases hk : k.hidden <;>
      simp [serializeFields, fieldsSpec, List.filter_cons, hk] <;>
      simpa [fieldsSpec] using ih

lemma serializeFields_length {D : Type} (row : RowData D) :
    ∀ keys, (serializeFields keys row).length =
      2 * (keys.filter (fun k => !k.hidden)).length := by
  intro keys
  induction keys with
  | nil => rfl
  | cons k rest ih =>
    by_cases hk : k.hidden
    · simp [serializeFields, List.filter_cons, hk, ih]
    · simp [serializeFields, List.filter_cons, hk, ih]
      omega

/-- Sample empty-row search result for concrete instantiations. -/
def resS : SearchResult Nat :=
  { dmd := none, score := 0, rowdata := { map := [], sv := [] } }

/-- Sample cursor-mode request for concrete instantiations. -/
def reqS : AREQ Nat :=
  { reqflags := { isSearch := false, isCursor := true, sendScores := false,
                  sendPayloads := false, sendSortkeys := false,
                  sendNoFields := true, noRows := false },
    stateflags := { iterDone := false, error := false },
    arrangeStep := none, lastLookup := [], totalResults := 0,
    cursorChunkSize := 0 }

/-- Sample request with a visible field `a` and a hidden lookup key `b`
(scenario S6 of the spec). -/
def reqF : AREQ Nat :=
  { reqflags := { isSearch := false, isCursor := false, sendScores := false,
                  sendPayloads := false, sendSortkeys := false,
                  sendNoFields := false, noRows := false },
    stateflags := { iterDone := false, error := false },
    arrangeStep := none,
    lastLookup := [{ name := "a", hidden := false, svsrc := false, svidx := 0 },
                   { name := "b", hidden := true, svsrc := false, svidx := 0 }],
    totalResults := 1,
    cursorChunkSize := 0 }

/-- Sample result whose row holds a value for field `a` only. -/
def resF : SearchResult Nat :=
  { dmd := none, score := 0,
    rowdata := { map := [("a", RSValue.str "va")], sv := [] } }

/-- C4: `serializeResult` emits exactly the spec's five sections in order,
each present iff its condition holds, and its return value equals the
number of sections actually serialized (the length of the emitted list,
one element per section). -/
theorem serializeResult_sections_C4 {D : Type} (g17 : D → String)
    (req : AREQ D) (r : SearchResult D) :
    (serializeResult g17 req r).1 = serializeResultSpec g17 req r ∧
    (serializeResult g17 req r).2 = (serializeResultSpec g17 req r).length := by
  unfold serializeResult serializeResultSpec
  rcases r with ⟨dmd, score, row⟩
  rcases dmd with _ | dmd <;>
    cases hs : req.reqflags.isSearch <;>
    cases h2 : req.reqflags.sendScores <;>
    cases h3 : req.reqflags.sendPayloads <;>
    cases h4 : req.reqflags.sendSortkeys <;>
    cases h5 : req.reqflags.sendNoFields <;>
    simp [hs, h2, h3, h4, h5] <;>
    rcases dmd.payload with _ | p <;> simp

/-- C6: when `SEND_NOFIELDS` is unset, the last element `serializeResult`
emits is the nested field array; the field block lists the non-hidden
lookup keys of the last scope in insertion order, name followed by
value-or-null, and its length is exactly twice the number of non-hidden
keys. -/
theorem serializeResult_fields_C6 {D : Type} (g17 : D → String)
    (req : AREQ D) (r : SearchResult D)
    (h : req.reqflags.sendNoFields = false) :
    (serializeResult g17 req r).1.getLast? =
      some (ReplyElem.array (serializeFields req.lastLookup r.rowdata)) ∧
    serializeFields req.lastLookup r.rowdata =
      fieldsSpec req.lastLookup r.rowdata ∧
    (serializeFields req.lastLookup r.rowdata).length =
      2 * (req.lastLookup.filter (fun k => !k.hidden)).length := by
  refine ⟨?_, serializeFields_eq_fieldsSpec _ _, serializeFields_length _ _⟩
  unfold serializeResult
  simp only [h, Bool.false_eq_true, if_false]
  exact getLast_append_single _ _

/-- C6 witness: scenario S6 — a visible field `a` and a hidden key `b`
give a field block of length 2. -/
theorem serializeResult_fields_C6_w :
    reqF.reqflags.sendNoFields = false ∧
    ((serializeResult (fun n => toString n) reqF resF).1.getLast? =
        some (ReplyElem.array (serializeFields reqF.lastLookup resF.rowdata)) ∧
      serializeFields reqF.lastLookup resF.rowdata =
        fieldsSpec reqF.lastLookup resF.rowdata ∧
      (serializeFields reqF.lastLookup resF.rowdata).length =
        2 * (reqF.lastLookup.filter (fun k => !k.hidden)).length) :=
  ⟨rfl, serializeResult_fields_C6 (fun n => toString n) reqF resF rfl⟩

lemma sendChunkLoop_not_lt {D : Type} (g17 : D → String) (req : AREQ D)
    (limit nrows : Nat) (stream : RPStream D) (h : ¬ nrows < limit) :
    sendChunkLoop g17 req limit nrows stream = ([], 0, RPStatus.Ok) := by
  cases stream with
  | nil => simp [sendChunkLoop, h]
  | cons hd tl =>
    obtain ⟨rc, r⟩ := hd
    simp [sendChunkLoop, h]

/-- C8: `sendChunk` with `limit = 0` emits exactly one element — the
`totalResults` counter — and closes the deferred-length array with
length 1, serializing no result rows whatever the first `Next` call
returns. -/
theorem sendChunk_limit_zero_C8 {D : Type} (g17 : D → String)
    (req : AREQ D) (stream : RPStream D) :
    (sendChunk g17 req stream 0).1.elems =
      [ReplyElem.int (req.totalResults : Int)] ∧
    (sendChunk g17 req stream 0).1.nelem = 1 := by
  cases stream with
  | nil => simp [sendChunk]
  | cons hd tl =>
    obtain ⟨rc, r⟩ := hd
    by_cases hrc : rc = RPStatus.Ok <;>
      simp [sendChunk, hrc, sendChunkLoop_not_lt]

/-- C1 (amended): `sendChunk` sets `ITER_DONE` exactly when the final
status of the last `Next` call is non-`Ok` — including `Paused` — and
leaves it unchanged when the loop stopped only because the row limit was
reached while the last `Next` returned `Ok`. -/
theorem sendChunk_iterDone_C1 {D : Type} (g17 : D → String) (req : AREQ D)
    (stream : RPStream D) (limit : Nat) :
    (sendChunk g17 req stream limit).2.iterDone =
      (if (sendChunk g17 req stream limit).1.finalRc = RPStatus.Ok
       then req.stateflags.iterDone else true) := by
  cases stream with
  | nil => simp [sendChunk]
  | cons hd tl =>
    obtain ⟨rc, r⟩ := hd
    by_cases hrc : rc = RPStatus.Ok
    · subst hrc
      by_cases hf : (sendChunkLoop g17 req limit 1 tl).2.2 = RPStatus.Ok <;>
        simp [sendChunk, hf]
    · simp [sendChunk, hrc]

/-- C1 counterexample: a first `Next` returning `Paused` still sets
`ITER_DONE` (the code marks done on every non-`Ok` status), refuting the
claimed `Paused` exception. -/
theorem sendChunk_paused_iterDone_cex_C1 :
    (sendChunk (fun n => toString n) reqS [(RPStatus.Paused, resS)] 5).1.finalRc =
      RPStatus.Paused ∧
    reqS.stateflags.iterDone = false ∧
    (sendChunk (fun n => toString n) reqS [(RPStatus.Paused, resS)] 5).2.iterDone =
      true :=
  ⟨rfl, rfl, rfl⟩

/-- C5: after `sendChunk`, `runCursor` replies `0` and disposes the cursor
when the `ERROR` state flag is set; otherwise replies `0` and disposes when
`ITER_DONE` is set; otherwise replies the cursor id and pauses the cursor.
The request's state flags at that point are exactly those produced by the
`sendChunk` call. -/
theorem runCursor_dispatch_C5 {D : Type} (g17 : D → String)
    (cfg : RSGlobalConfigT) (cursorId : Nat) (req : AREQ D)
    (stream : RPStream D) (num : Nat) :
    ((runCursor g17 cfg cursorId req stream num).second =
      if (runCursor g17 cfg cursorId req stream num).req.stateflags.error then 0
      else if (runCursor g17 cfg cursorId req stream num).req.stateflags.iterDone then 0
      else cursorId) ∧
    ((runCursor g17 cfg cursorId req stream num).outcome =
      if (runCursor g17 cfg cursorId req stream num).req.stateflags.error then
        CursorOutcome.disposed
      else if (runCursor g17 cfg cursorId req stream num).req.stateflags.iterDone then
        CursorOutcome.disposed
      else CursorOutcome.paused) ∧
    (runCursor g17 cfg cursorId req stream num).req.stateflags =
      (sendChunk g17
        { req with cursorChunkSize := cursorEffectiveSize cfg req.cursorChunkSize num }
        stream (cursorEffectiveSize cfg req.cursorChunkSize num)).2 := by
  unfold runCursor
  by_cases he :
      (sendChunk g17
        { req with cursorChunkSize := cursorEffectiveSize cfg req.cursorChunkSize num }
        stream (cursorEffectiveSize cfg req.cursorChunkSize num)).2.error = true
  · simp [he]
  · by_cases hi :
        (sendChunk g17
          { req with cursorChunkSize := cursorEffectiveSize cfg req.cursorChunkSize num }
          stream (cursorEffectiveSize cfg req.cursorChunkSize num)).2.iterDone = true <;>
      simp [he, hi]

/-- C7: the limit `runCursor` hands to `sendChunk` is the effective chunk
size — the caller-supplied count if nonzero, else the request's configured
chunk size if nonzero, else the registry-wide default read size. -/
theorem runCursor_effective_size_C7 {D : Type} (g17 : D → String)
    (cfg : RSGlobalConfigT) (cursorId : Nat) (req : AREQ D)
    (stream : RPStream D) (num : Nat) :
    ((runCursor g17 cfg cursorId req stream num).chunk =
      (sendChunk g17
        { req with cursorChunkSize := cursorEffectiveSize cfg req.cursorChunkSize num }
        stream (cursorEffectiveSize cfg req.cursorChunkSize num)).1) ∧
    (cursorEffectiveSize cfg req.cursorChunkSize num =
      if num ≠ 0 then num
      else if req.cursorChunkSize ≠ 0 then req.cursorChunkSize
      else cfg.cursorReadSize) := by
  constructor
  · unfold runCursor
    by_cases he :
        (sendChunk g17
          { req with cursorChunkSize := cursorEffectiveSize cfg req.cursorChunkSize num }
          stream (cursorEffectiveSize cfg req.cursorChunkSize num)).2.error = true
    · simp [he]
    · by_cases hi :
          (sendChunk g17
            { req with cursorChunkSize := cursorEffectiveSize cfg req.cursorChunkSize num }
            stream (cursorEffectiveSize cfg req.cursorChunkSize num)).2.iterDone = true <;>
        simp [he, hi]
  · unfold cursorEffectiveSize
    by_cases h1 : num = 0 <;> by_cases h2 : req.cursorChunkSize = 0 <;>
      simp [h1, h2]

/-- C9: `runCursor` writes the effective chunk size back into the
request's `cursorChunkSize` before streaming; hence after a read with a
nonzero count `n`, a later read of the same request that omits the count
(zero) computes `n` as its effective chunk size, whatever the registry
default then is. -/
theorem runCursor_chunk_size_writeback_C9 {D : Type} (g17 : D → String)
    (cfg : RSGlobalConfigT) (cursorId : Nat) (req : AREQ D)
    (stream : RPStream D) (n : Nat) (cfg2 : RSGlobalConfigT) (h : n ≠ 0) :
    (runCursor g17 cfg cursorId req stream n).req.cursorChunkSize = n ∧
    cursorEffectiveSize cfg2
      (runCursor g17 cfg cursorId req stream n).req.cursorChunkSize 0 = n := by
  have hce : cursorEffectiveSize cfg req.cursorChunkSize n = n := by
    simp [cursorEffectiveSize, h]
  have hsz : (runCursor g17 cfg cursorId req stream n).req.cursorChunkSize = n := by
    unfold runCursor
    rw [hce]
    by_cases he : (sendChunk g17 { req with cursorChunkSize := n } stream n).2.error = true <;>
      by_cases hi : (sendChunk g17 { req with cursorChunkSize := n } stream n).2.iterDone = true <;>
      simp [he, hi]
  exact ⟨hsz, by simp [hsz, cursorEffectiveSize, h]⟩

/-- C9 witness: a read with count 7 leaves chunk size 7 behind, and a
later countless read under a different default still uses 7. -/
theorem runCursor_chunk_size_writeback_C9_w :
    (7 : Nat) ≠ 0 ∧
    ((runCursor (fun n => toString n) { cursorReadSize := 50 } 33 reqS [] 7).req.cursorChunkSize = 7 ∧
      cursorEffectiveSize { cursorReadSize := 99 }
        (runCursor (fun n => toString n) { cursorReadSize := 50 } 33 reqS [] 7).req.cursorChunkSize 0 = 7) :=
  ⟨by decide,
   runCursor_chunk_size_writeback_C9 (fun n => toString n)
     { cursorReadSize := 50 } 33 reqS [] 7 { cursorReadSize := 99 } (by decide)⟩

/-- C2: the three-argument invocation `FT.CURSOR GC <index>` — the syntax
the C file's own comment documents — is rejected by the `argc < 4` arity
check instead of replying the reclaimed-cursor count. -/
theorem cursorCommand_gc_arity_C2 :
    RSCursorCommand ["FT.CURSOR", "GC", "idx"] = CursorAction.wrongArity :=
  rfl

lemma stringToLongLong_bounds {s : String} {c : Int}
    (h : stringToLongLong s = some c) :
    -(2 ^ 63) ≤ c ∧ c ≤ 2 ^ 63 - 1 := by
  unfold stringToLongLong at h
  split at h <;>
  · rw [Option.bind_eq_some] at h
    obtain ⟨n, hn, hf⟩ := h
    split at hf
    · rw [Option.some_inj] at hf
      omega
    · exact absurd hf (by simp)

/-- C10: a COUNT argument that parses as a negative signed 64-bit integer
is not rejected with "Bad value for COUNT"; it is converted to an unsigned
chunk size modulo `2^64`, which lands at `2^64 + c ≥ 2^63` (effectively
unbounded); only COUNT strings that fail the signed parse are rejected. -/
theorem cursorCommand_negative_count_C10
    (idx cids cnts s : String) (cid c : Int)
    (h1 : stringToLongLong cids = some cid)
    (h2 : stringToLongLong cnts = some c)
    (h3 : c < 0)
    (h4 : stringToLongLong s = none) :
    RSCursorCommand ["FT.CURSOR", "READ", idx, cids, "COUNT", cnts] =
      CursorAction.read (toSizeT cid) (toSizeT c) ∧
    (toSizeT c : Int) = 2 ^ 64 + c ∧
    2 ^ 63 ≤ toSizeT c ∧
    RSCursorCommand ["FT.CURSOR", "READ", idx, cids, "COUNT", s] =
      CursorAction.errorReply "Bad value for COUNT" := by
  have hlow : -(2 ^ 63) ≤ c := (stringToLongLong_bounds h2).1
  have hlo : -9223372036854775808 ≤ c := by
    have h63 : ((2 : Int) ^ 63) = 9223372036854775808 := by norm_num
    rw [h63] at hlow
    exact hlow
  have h64 : ((2 : Int) ^ 64) = 18446744073709551616 := by norm_num
  have hR : toupperC (firstCharC "READ") = 'R' := by decide
  refine ⟨?_, ?_, ?_, ?_⟩
  · simp [RSCursorCommand, h1, h2, hR]
  · unfold toSizeT
    rw [h64]
    omega
  · unfold toSizeT
    rw [h64, show ((2 : Nat) ^ 63) = 9223372036854775808 from by norm_num]
    omega
  · simp [RSCursorCommand, h1, h4, hR]

/-- C10 witness: `FT.CURSOR READ idx 33 COUNT -1` dispatches to a read of
cursor 33 with chunk size `2^64 - 1`, while a non-numeric COUNT is
rejected. -/
theorem cursorCommand_negative_count_C10_w :
    (stringToLongLong "33" = some 33 ∧ stringToLongLong "-1" = some (-1) ∧
      (-1 : Int) < 0 ∧ stringToLongLong "xyz" = none) ∧
    (RSCursorCommand ["FT.CURSOR", "READ", "idx", "33", "COUNT", "-1"] =
        CursorAction.read (toSizeT 33) (toSizeT (-1)) ∧
      (toSizeT (-1) : Int) = 2 ^ 64 + (-1) ∧
      2 ^ 63 ≤ toSizeT (-1) ∧
      RSCursorCommand ["FT.CURSOR", "READ", "idx", "33", "COUNT", "xyz"] =
        CursorAction.errorReply "Bad value for COUNT") :=
  ⟨⟨by decide, by decide, by decide, by decide⟩,
   cursorCommand_negative_count_C10 "idx" "33" "-1" "xyz" 33 (-1)
     (by decide) (by decide) (by decide) (by decide)⟩

end RediSearchExec
